import Mathlib

/-!
Shallow embedding of the SIWE/JWT session-lifecycle core of the repository
`dhwind/siwe-jwt-auth`, together with proofs about it.

Embedded source files:
* `AuthService` (getNonce / signIn / refresh / signOut / storeToken / getTokenKey)
* `JwtStrategy.validate` (the access guard), including the passport-jwt
  signature/expiry verification configured in its constructor
* `RedisService` (set / get / delete) as an association list with recorded TTLs
* `parseDuration` from the utils file, including the ordered regex alternation
* the jwt section of `configuration.ts` (parseDuration feeding expiresIn values)

Modelling conventions:
* A JWT string is represented by the `Jwt` structure (payload, signing secret,
  iat, exp).  HS256 signing is deterministic, and the base64url encoding of
  (header, payload, signature) is injective, so string equality of tokens
  coincides with structural equality of `Jwt` values.
* `jsonwebtoken` (wrapped by `@nestjs/jwt`) interprets a numeric `expiresIn`
  option as a count of seconds and sets `exp = iat + expiresIn`.
* External collaborators (the siwe library's parse and verify, ethers'
  `isAddress`, the random nonce generator, cuid generation) are oracles in
  `Env`; the nonce generator is a stream indexed by a counter in the state.
* The user table (Prisma) is a list of records; `publicAddress` carries a
  unique index, so the `update ... where publicAddress` call is modelled by
  mapping the update over the records matching the address.  Prisma's
  `@updatedAt` behaviour is modelled by stamping `updatedAt` on update.
* Redis availability is a flag in `Env`; an unavailable store makes set/get/
  delete throw `ServiceUnavailableException` (an `HttpException`, status 503).
-/

namespace SiweAuth

/-- A row of the `users` table (Prisma model `User`): `id` is a cuid string,
`publicAddress` and `username` carry unique indexes, timestamps are epoch
seconds. -/
structure UserRec where
  id : String
  publicAddress : String
  nonce : String
  username : String
  createdAt : Nat
  updatedAt : Nat
deriving DecidableEq, Repr

/-- The fields of a parsed SIWE message that `AuthService.signIn` reads:
the embedded address and nonce.  The remaining fields (domain, uri, version,
chain id, issued-at, statement) are never inspected by the service itself and
are absorbed into the parse/verify oracles. -/
structure SiweMsg where
  address : String
  nonce : String
deriving DecidableEq, Repr

/-- A signed JWT: serialized token strings are in bijection with these values
(deterministic HS256 signing, injective encoding).  `iat`/`exp` are epoch
seconds; `exp = iat + expiresIn` where the numeric `expiresIn` option is a
count of seconds per jsonwebtoken. -/
structure Jwt where
  payload : UserRec
  secret : String
  iat : Nat
  exp : Nat
deriving DecidableEq, Repr

/-- jwtService.signAsync(payload, \x7bsecret, expiresIn\x7d) at clock `now`. -/
def signJwt (payload : UserRec) (secret : String) (expiresIn : Nat) (now : Nat) : Jwt :=
  { payload := payload, secret := secret, iat := now, exp := now + expiresIn }

/-- jwtService.verifyAsync / passport-jwt verification with
`ignoreExpiration: false`: the secret must match and the token must not be
expired (jsonwebtoken rejects once the clock reaches `exp`). -/
def verifyJwt (t : Jwt) (secret : String) (now : Nat) : Bool :=
  t.secret == secret && decide (now < t.exp)

/-- One Redis key slot as written by `RedisService.set(key, value, ttlSeconds)`
(a `SETEX`): the value is always a token string in this code base, and the TTL
that was passed is recorded alongside. -/
structure RedisEntry where
  key : String
  value : Jwt
  ttlSeconds : Nat
deriving DecidableEq, Repr

/-- `RedisService.set` with a TTL: overwrites any previous value at the key. -/
def redisSet (l : List RedisEntry) (k : String) (v : Jwt) (ttl : Nat) : List RedisEntry :=
  { key := k, value := v, ttlSeconds := ttl } :: l.filter (fun e => !(e.key == k))

/-- The full entry stored at a key, if any. -/
def redisGetEntry (l : List RedisEntry) (k : String) : Option RedisEntry :=
  l.find? (fun e => e.key == k)

/-- `RedisService.get`: the value stored at a key, or null. -/
def redisGet (l : List RedisEntry) (k : String) : Option Jwt :=
  (redisGetEntry l k).map (fun e => e.value)

/-- `RedisService.delete(k1, k2)`: one `DEL` of both keys; deleting an absent
key is not an error. -/
def redisDel2 (l : List RedisEntry) (k1 k2 : String) : List RedisEntry :=
  l.filter (fun e => !(e.key == k1 || e.key == k2))

/-- `AuthService.getTokenKey`: the template literal `type:publicAddress`. -/
def getTokenKey (type : String) (publicAddress : String) : String :=
  type ++ ":" ++ publicAddress

/-- `AuthService.storeToken`: receives the configured expiration `ttl` in
milliseconds and stores the token with `Math.floor(ttl / 1000)` seconds of
TTL. -/
def storeToken (l : List RedisEntry) (type : String) (publicAddress : String)
    (token : Jwt) (ttl : Nat) : List RedisEntry :=
  redisSet l (getTokenKey type publicAddress) token (ttl / 1000)

/-- The external oracles and cached configuration of `AuthService` /
`JwtStrategy`. -/
structure Env where
  /-- `new SiweMessage(message)`: `none` models the constructor throwing. -/
  parseSiwe : String → Option SiweMsg
  /-- `ethers.isAddress`. -/
  isAddress : String → Bool
  /-- `siweMessage.verify(\x7bsignature, nonce\x7d)`: `none` models a thrown
  error, `some b` a `SiweResponse` with success flag `b`. -/
  siweVerify : SiweMsg → String → String → Option Bool
  /-- The stream of values produced by siwe's `generateNonce`, indexed by the
  nonce counter in the state. -/
  nonceStream : Nat → String
  /-- The stream of cuids produced for created user rows. -/
  idStream : Nat → String
  /-- `jwt.accessSecret` from configuration. -/
  accessSecret : String
  /-- `jwt.refreshSecret` from configuration. -/
  refreshSecret : String
  /-- `jwt.accessExpiresIn` from configuration: `parseDuration` output, a
  number of milliseconds. -/
  accessExpiresIn : Nat
  /-- `jwt.refreshExpiresIn` from configuration, milliseconds. -/
  refreshExpiresIn : Nat
  /-- Whether the Redis connection is up; when false every `RedisService`
  operation throws `ServiceUnavailableException`. -/
  redisUp : Bool

/-- The mutable world visible to the service: the `users` table, the Redis
keyspace, the position in the nonce/cuid stream, and the clock (epoch
seconds). -/
structure St where
  users : List UserRec
  redis : List RedisEntry
  nonceCtr : Nat
  now : Nat
deriving DecidableEq, Repr

/-- The distinct failures the embedded code can raise, one constructor per
`throw` site. -/
inductive AuthErr where
  /-- signIn: 'Invalid SIWE message', 400. -/
  | invalidSiweMessage
  /-- getNonce: 'Invalid address', 400. -/
  | invalidAddress
  /-- signIn: 'Address is not valid!', 400. -/
  | addressNotValid
  /-- signIn: 'User not found', 400. -/
  | userNotFound
  /-- signIn: 'Invalid nonce', 401. -/
  | invalidNonce
  /-- signIn: 'SIWE verification failed. Bad signature or nonce', 401. -/
  | siweVerifyThrew
  /-- signIn: 'SIWE verification failed', 401. -/
  | siweVerifyFailed
  /-- refresh: 'Invalid token payload', 401. -/
  | invalidTokenPayload
  /-- refresh: 'Refresh token not found or expired', 401. -/
  | refreshTokenStale
  /-- refresh catch-all: 'Invalid refresh token', 401. -/
  | invalidRefreshToken
  /-- JwtStrategy.validate: 'User not found', 401. -/
  | guardUserMissing
  /-- JwtStrategy.validate: 'Invalid token payload', 401. -/
  | guardPayloadInvalid
  /-- JwtStrategy.validate: 'Token not found or expired in session store', 401. -/
  | guardTokenStale
  /-- JwtStrategy.validate returned null (no user row for the payload id):
  passport rejects with 401. -/
  | guardIdentityMissing
  /-- passport-jwt rejected the bearer token (bad signature or expired), 401. -/
  | guardJwtRejected
  /-- `ServiceUnavailableException` from `RedisService`, 503. -/
  | serviceUnavailable
deriving DecidableEq, Repr

/-- The HTTP status carried by each failure. -/
def httpStatus : AuthErr → Nat
  | .invalidSiweMessage => 400
  | .invalidAddress => 400
  | .addressNotValid => 400
  | .userNotFound => 400
  | .invalidNonce => 401
  | .siweVerifyThrew => 401
  | .siweVerifyFailed => 401
  | .invalidTokenPayload => 401
  | .refreshTokenStale => 401
  | .invalidRefreshToken => 401
  | .guardUserMissing => 401
  | .guardPayloadInvalid => 401
  | .guardTokenStale => 401
  | .guardIdentityMissing => 401
  | .guardJwtRejected => 401
  | .serviceUnavailable => 503

/-- The body of `POST /auth/sign-in` (`SignInDTO`). -/
structure SignInDTO where
  nonce : String
  message : String
  signature : String
deriving DecidableEq, Repr

/-- The value returned by a successful `AuthService.signIn`. -/
structure SignInResp where
  address : String
  accessToken : Jwt
  refreshToken : Jwt
deriving DecidableEq, Repr

/-- The value returned by `AuthService.getNonce`. -/
structure NonceResp where
  nonce : String
  address : String
deriving DecidableEq, Repr

/-- The row update performed by `userService.update(\x7bwhere: \x7bpublicAddress\x7d,
data: \x7bnonce\x7d\x7d)`: the record under the unique `publicAddress` key gets the
new nonce and a fresh `@updatedAt` stamp; every other row is untouched. -/
def rotateNonce (addr ν : String) (now : Nat) (u : UserRec) : UserRec :=
  if u.publicAddress == addr then { u with nonce := ν, updatedAt := now } else u

/-- `AuthService.getNonce`: validate the address, then create the user with a
fresh nonce or overwrite the existing user's nonce with a fresh one, and
return the written nonce with the address. -/
def getNonce (env : Env) (st : St) (address : String) : Except AuthErr NonceResp × St :=
  if env.isAddress address = false then
    (.error .invalidAddress, st)
  else
    match st.users.find? (fun u => u.publicAddress == address) with
    | none =>
        let nonce := env.nonceStream st.nonceCtr
        let u : UserRec :=
          { id := env.idStream st.nonceCtr, publicAddress := address, nonce := nonce,
            username := "user-" ++ address, createdAt := st.now, updatedAt := st.now }
        (.ok { nonce := u.nonce, address := u.publicAddress },
         { st with users := st.users ++ [u], nonceCtr := st.nonceCtr + 1 })
    | some u0 =>
        let nonce := env.nonceStream st.nonceCtr
        let u1 := { u0 with nonce := nonce, updatedAt := st.now }
        let users1 := st.users.map (rotateNonce address nonce st.now)
        (.ok { nonce := u1.nonce, address := u1.publicAddress },
         { st with users := users1, nonceCtr := st.nonceCtr + 1 })

/-- Lines 97–142 of `AuthService.signIn`: the read-only check sequence
(message parse, embedded-address validation, user lookup, nonce comparison,
SIWE signature verification), returning the parsed message and the user row
on success. -/
def signInChecks (env : Env) (st : St) (dto : SignInDTO) :
    Except AuthErr (SiweMsg × UserRec) :=
  match env.parseSiwe dto.message with
  | none => .error .invalidSiweMessage
  | some siweMessage =>
    if env.isAddress siweMessage.address = false then .error .addressNotValid
    else
      match st.users.find? (fun u => u.publicAddress == siweMessage.address) with
      | none => .error .userNotFound
      | some user =>
        if (user.nonce == dto.nonce) = false then .error .invalidNonce
        else
          match env.siweVerify siweMessage dto.signature user.nonce with
          | none => .error .siweVerifyThrew
          | some false => .error .siweVerifyFailed
          | some true => .ok (siweMessage, user)

/-- `AuthService.signIn`: run the checks; on success rotate the user's nonce,
sign the access and refresh tokens over the pre-rotation user snapshot
(`payload = \x7b...user\x7d`), persist both into Redis through `storeToken`,
and return the address with both tokens.  A Redis failure surfaces after the
nonce rotation and before any token is returned. -/
def signIn (env : Env) (st : St) (dto : SignInDTO) : Except AuthErr SignInResp × St :=
  match signInChecks env st dto with
  | .error e => (.error e, st)
  | .ok (siweMessage, user) =>
    let nextNonce := env.nonceStream st.nonceCtr
    let users1 := st.users.map (rotateNonce siweMessage.address nextNonce st.now)
    let st1 := { st with users := users1, nonceCtr := st.nonceCtr + 1 }
    let accessToken := signJwt user env.accessSecret env.accessExpiresIn st.now
    let refreshToken := signJwt user env.refreshSecret env.refreshExpiresIn st.now
    if env.redisUp = false then
      (.error .serviceUnavailable, st1)
    else
      let redis1 := storeToken st1.redis "access" siweMessage.address accessToken
        env.accessExpiresIn
      let redis2 := storeToken redis1 "refresh" siweMessage.address refreshToken
        env.refreshExpiresIn
      (.ok { address := siweMessage.address, accessToken := accessToken,
             refreshToken := refreshToken },
       { st1 with redis := redis2 })

/-- `AuthService.refresh`: verify the refresh token against the refresh secret
(expiration enforced), require a truthy `publicAddress` in the payload,
require the Redis-stored refresh token for that address to be string-equal to
the presented one, then sign a fresh access token from the decoded fields
(minus `iat`/`exp`) and overwrite the access slot.  The `oldAccessToken`
parameter is accepted (the controller passes the access-token cookie) but
never read. -/
def refresh (env : Env) (st : St) (refreshToken : Jwt) (oldAccessToken : Option Jwt) :
    Except AuthErr Jwt × St :=
  if verifyJwt refreshToken env.refreshSecret st.now = false then
    (.error .invalidRefreshToken, st)
  else
    let decoded := refreshToken.payload
    if decoded.publicAddress == "" then (.error .invalidTokenPayload, st)
    else if env.redisUp = false then (.error .serviceUnavailable, st)
    else
      match redisGet st.redis (getTokenKey "refresh" decoded.publicAddress) with
      | none => (.error .refreshTokenStale, st)
      | some stored =>
        if stored == refreshToken then
          let accessToken := signJwt decoded env.accessSecret env.accessExpiresIn st.now
          (.ok accessToken,
           { st with redis := (storeToken st.redis "access" decoded.publicAddress
               accessToken env.accessExpiresIn) })
        else (.error .refreshTokenStale, st)

/-- `AuthService.signOut`: one `RedisService.delete` of both token keys for
the address. -/
def signOut (env : Env) (st : St) (publicAddress : String) : Except AuthErr Unit × St :=
  if env.redisUp = false then (.error .serviceUnavailable, st)
  else
    (.ok (),
     { st with redis := (redisDel2 st.redis (getTokenKey "access" publicAddress)
         (getTokenKey "refresh" publicAddress)) })

/-- `JwtStrategy` (the access guard): passport-jwt first verifies the bearer
token against `jwt.accessSecret` with `ignoreExpiration: false`; then
`validate` requires a truthy `payload.id`, a truthy `payload.publicAddress`,
a Redis access entry for that address string-equal to the presented token,
and finally resolves the current user row by `payload.id` (a null row makes
passport reject).  The guard mutates nothing. -/
def accessGuard (env : Env) (st : St) (token : Jwt) : Except AuthErr UserRec :=
  if verifyJwt token env.accessSecret st.now = false then .error .guardJwtRejected
  else if token.payload.id == "" then .error .guardUserMissing
  else if token.payload.publicAddress == "" then .error .guardPayloadInvalid
  else if env.redisUp = false then .error .serviceUnavailable
  else
    match redisGet st.redis (getTokenKey "access" token.payload.publicAddress) with
    | none => .error .guardTokenStale
    | some stored =>
      if stored == token then
        match st.users.find? (fun u => u.id == token.payload.id) with
        | some u => .ok u
        | none => .error .guardIdentityMissing
      else .error .guardTokenStale

/-! ## `parseDuration` (utils)

The helper builds `/(\d+)\s*(d|h|m|s|ms)/g`, sums `Number(value) * units[unit]`
over all matches (`total` starts as `null`, is reset to `0` whenever falsy),
and returns `total || parseInt(str)`.

Regex semantics made explicit: a match attempt at a position takes a maximal
run of digits `\d+`, a maximal run of whitespace `\s*`, and then the ordered
alternation `d|h|m|s|ms`.  Backtracking the greedy runs can never turn a
failed attempt into a success (a digit is neither whitespace nor a unit, and
whitespace is not a unit), so the scan tries each start position left to
right, and the alternative `m` always wins over `ms` because it is listed
first.  `matchAll` resumes immediately after each match. -/

/-- `Number(value)` for a captured run of decimal digits. -/
def digitsVal (ds : List Char) : Nat :=
  ds.foldl (fun a c => a * 10 + (c.toNat - '0'.toNat)) 0

/-- The ordered alternation `(d|h|m|s|ms)` of the regex, returning the factor
`units[unit]` (milliseconds) and the rest of the input after the unit.  The
`ms` alternative is listed last exactly as in the source, which makes it
unreachable: any input it would match is already matched by `m`. -/
def matchUnit (cs : List Char) : Option (Nat × List Char) :=
  match cs with
  | [] => none
  | c :: r =>
    if c = 'd' then some (24 * 60 * 60 * 1000, r)
    else if c = 'h' then some (60 * 60 * 1000, r)
    else if c = 'm' then some (60 * 1000, r)
    else if c = 's' then some (1000, r)
    else
      match cs with
      | 'm' :: 's' :: r2 => some (1, r2)
      | _ => none

/-- The scan performed by `str.matchAll(regex)`, fuelled by the input length
(each match or failed start position consumes at least one character), and
yielding the list of `(Number(value), units[unit])` pairs. -/
def scanMatchesF : Nat → List Char → List (Nat × Nat)
  | 0, _ => []
  | _, [] => []
  | fuel + 1, c :: rest =>
    if c.isDigit then
      match matchUnit (((c :: rest).dropWhile Char.isDigit).dropWhile Char.isWhitespace) with
      | some (f, r) => (digitsVal ((c :: rest).takeWhile Char.isDigit), f) :: scanMatchesF fuel r
      | none => scanMatchesF fuel rest
    else scanMatchesF fuel rest

/-- All matches of the duration regex over a string. -/
def scanMatches (cs : List Char) : List (Nat × Nat) :=
  scanMatchesF cs.length cs

/-- A hexadecimal digit, for `parseInt`'s automatic base-16 mode. -/
def isHexDigit (c : Char) : Bool :=
  c.isDigit || ('a' ≤ c && c ≤ 'f') || ('A' ≤ c && c ≤ 'F')

/-- The value of a hexadecimal digit. -/
def hexVal (c : Char) : Nat :=
  if c.isDigit then c.toNat - '0'.toNat
  else if 'a' ≤ c && c ≤ 'f' then c.toNat - 'a'.toNat + 10
  else c.toNat - 'A'.toNat + 10

/-- The digit-consuming core of JS `parseInt` with no radix argument: an
`0x`/`0X` lead switches to base 16, otherwise base 10; no leading digit means
`NaN` (modelled as `none`). -/
def parseIntCore (cs : List Char) : Option Nat :=
  match cs with
  | '0' :: 'x' :: r =>
      let ds := r.takeWhile isHexDigit
      if ds.isEmpty then none else some (ds.foldl (fun a c => a * 16 + hexVal c) 0)
  | '0' :: 'X' :: r =>
      let ds := r.takeWhile isHexDigit
      if ds.isEmpty then none else some (ds.foldl (fun a c => a * 16 + hexVal c) 0)
  | _ =>
      let ds := cs.takeWhile Char.isDigit
      if ds.isEmpty then none else some (digitsVal ds)

/-- JS `parseInt(str)`: skip leading whitespace, accept an optional sign,
then parse leading digits; `NaN` is `none`. -/
def parseIntJS (cs : List Char) : Option Int :=
  match cs.dropWhile Char.isWhitespace with
  | '-' :: r => (parseIntCore r).map (fun n => -(n : Int))
  | '+' :: r => (parseIntCore r).map (fun n => (n : Int))
  | cs1 => (parseIntCore cs1).map (fun n => (n : Int))

/-- `parseDuration(str)`: the summation loop over the regex matches (`total`
stays `null` when there is no match; resetting a falsy `total` to `0` inside
the loop never changes the sum, because the running total is only falsy when
it is `0`), then `total || parseInt(str)`. -/
def parseDuration (s : String) : Option Int :=
  match scanMatches s.data with
  | [] => parseIntJS s.data
  | ms =>
      let total := ms.foldl (fun a p => a + p.1 * p.2) 0
      if total = 0 then parseIntJS s.data else some (Int.ofNat total)

/-! ## General lemmas about the association-list store and the user table -/

/-- `find?` commutes with mapping a function that does not change the value of
the search predicate. -/
theorem find?_map_pres {α : Type} (f : α → α) (p : α → Bool) (l : List α)
    (hf : ∀ x, p (f x) = p x) : (l.map f).find? p = (l.find? p).map f := by
  rw [List.find?_map f l]
  have h : p ∘ f = p := funext hf
  rw [h]

/-- Searching for `p` in a filtered list fails when the filter excludes every
`p`-positive element. -/
theorem find?_filter_none {α : Type} (p q : α → Bool) (l : List α)
    (h : ∀ e, p e = true → q e = false) : (l.filter q).find? p = none := by
  induction l with
  | nil => rfl
  | cons a t ih =>
    cases hq : q a
    · simpa [List.filter_cons, hq] using ih
    · have hp : p a = false := by
        cases hpa : p a
        · rfl
        · rw [h a hpa] at hq; cases hq
      simpa [List.filter_cons, hq, List.find?_cons, hp] using ih

/-- Searching for `p` in a filtered list is unchanged when the filter keeps
every `p`-positive element. -/
theorem find?_filter_keep {α : Type} (p q : α → Bool) (l : List α)
    (h : ∀ e, p e = true → q e = true) : (l.filter q).find? p = l.find? p := by
  induction l with
  | nil => rfl
  | cons a t ih =>
    cases hpa : p a
    · cases hqa : q a
      · simp [List.filter_cons, hqa, List.find?_cons, hpa, ih]
      · simp [List.filter_cons, hqa, List.find?_cons, hpa, ih]
    · have hqa := h a hpa
      simp [List.filter_cons, hqa, List.find?_cons, hpa]

/-- Filtering twice with the same predicate is the same as filtering once. -/
theorem filter_self_idem {α : Type} (q : α → Bool) (l : List α) :
    (l.filter q).filter q = l.filter q := by
  induction l with
  | nil => rfl
  | cons a t ih =>
    cases hqa : q a
    · simp [List.filter_cons, hqa, ih]
    · simp [List.filter_cons, hqa, ih]

/-- The length of a Redis token key. -/
theorem getTokenKey_length (t a : String) :
    (getTokenKey t a).length = t.length + 1 + a.length := by
  have h1 : (":" : String).length = 1 := rfl
  simp [getTokenKey, String.length_append, h1]

/-- The access slot and the refresh slot of one address are distinct keys. -/
theorem accessKey_ne_refreshKey (a : String) :
    getTokenKey "access" a ≠ getTokenKey "refresh" a := by
  intro h
  have hlen := congrArg String.length h
  rw [getTokenKey_length, getTokenKey_length] at hlen
  have h6 : ("access" : String).length = 6 := rfl
  have h7 : ("refresh" : String).length = 7 := rfl
  rw [h6, h7] at hlen
  omega

/-- Boolean form of the key disjointness, one way. -/
theorem accessKey_beq_refreshKey (a : String) :
    (getTokenKey "access" a == getTokenKey "refresh" a) = false :=
  beq_eq_false_iff_ne.mpr (accessKey_ne_refreshKey a)

/-- Boolean form of the key disjointness, other way. -/
theorem refreshKey_beq_accessKey (a : String) :
    (getTokenKey "refresh" a == getTokenKey "access" a) = false :=
  beq_eq_false_iff_ne.mpr (Ne.symm (accessKey_ne_refreshKey a))

/-- The nonce-rotation row update never changes `publicAddress`. -/
theorem rotateNonce_publicAddress (addr ν : String) (now : Nat) (x : UserRec) :
    (rotateNonce addr ν now x).publicAddress = x.publicAddress := by
  by_cases h : (x.publicAddress == addr) = true <;> simp [rotateNonce, h]

/-- The nonce-rotation row update never changes `id`. -/
theorem rotateNonce_id (addr ν : String) (now : Nat) (x : UserRec) :
    (rotateNonce addr ν now x).id = x.id := by
  by_cases h : (x.publicAddress == addr) = true <;> simp [rotateNonce, h]

/-- The nonce-rotation row update never changes `username`. -/
theorem rotateNonce_username (addr ν : String) (now : Nat) (x : UserRec) :
    (rotateNonce addr ν now x).username = x.username := by
  by_cases h : (x.publicAddress == addr) = true <;> simp [rotateNonce, h]

/-- On the row that carries the address, the update writes the new nonce and
stamps `updatedAt`. -/
theorem rotateNonce_of_match (addr ν : String) (now : Nat) (x : UserRec)
    (h : (x.publicAddress == addr) = true) :
    rotateNonce addr ν now x = { x with nonce := ν, updatedAt := now } := by
  simp [rotateNonce, h]

/-- Looking a user up by address after the rotation update finds the rotated
image of the user found before it. -/
theorem find?_users_rotate (l : List UserRec) (addr a ν : String) (now : Nat) :
    (l.map (rotateNonce addr ν now)).find? (fun u => u.publicAddress == a) =
      (l.find? (fun u => u.publicAddress == a)).map (rotateNonce addr ν now) :=
  find?_map_pres _ _ l (fun x => by
    show ((rotateNonce addr ν now x).publicAddress == a) = (x.publicAddress == a)
    rw [rotateNonce_publicAddress])

/-! ## Inversion lemmas for `signIn` -/

/-- The check phase of `signIn` succeeds exactly when the message parses, its
embedded address is valid, the user exists, the request nonce matches the
stored one, and SIWE verification reports success. -/
theorem signInChecks_ok_iff (env : Env) (st : St) (dto : SignInDTO) (m : SiweMsg) (u : UserRec) :
    signInChecks env st dto = .ok (m, u) ↔
      env.parseSiwe dto.message = some m ∧ env.isAddress m.address = true ∧
      st.users.find? (fun x => x.publicAddress == m.address) = some u ∧
      u.nonce = dto.nonce ∧ env.siweVerify m dto.signature u.nonce = some true := by
  constructor
  · intro h
    unfold signInChecks at h
    split at h
    · simp at h
    next msg hp =>
      split at h
      · simp at h
      next haddr =>
        split at h
        · simp at h
        next user hfind =>
          split at h
          · simp at h
          next hnonce =>
            split at h
            · simp at h
            · simp at h
            next hver =>
              simp only [Except.ok.injEq, Prod.mk.injEq] at h
              obtain ⟨rfl, rfl⟩ := h
              refine ⟨hp, ?_, hfind, ?_, hver⟩
              · simpa using haddr
              · exact eq_of_beq (by simpa using hnonce)
  · rintro ⟨h1, h2, h3, h4, h5⟩
    unfold signInChecks
    rw [h1]
    rw [h4] at h5
    simp [h2, h3, h4, h5]

/-- What a successful `signIn` returns and what it does to the state: the
checks passed, Redis was up, the tokens are signed over the pre-rotation user
snapshot, the user's nonce is rotated to the freshly generated value, and
both tokens are persisted under their keyed slots. -/
theorem signIn_ok_inv (env : Env) (st : St) (dto : SignInDTO) (out : SignInResp) (st1 : St)
    (h : signIn env st dto = (.ok out, st1)) :
    ∃ m u, signInChecks env st dto = .ok (m, u) ∧ env.redisUp = true ∧
      out.address = m.address ∧
      out.accessToken = signJwt u env.accessSecret env.accessExpiresIn st.now ∧
      out.refreshToken = signJwt u env.refreshSecret env.refreshExpiresIn st.now ∧
      st1.users = st.users.map (rotateNonce m.address (env.nonceStream st.nonceCtr) st.now) ∧
      st1.redis = storeToken (storeToken st.redis "access" m.address out.accessToken
        env.accessExpiresIn) "refresh" m.address out.refreshToken env.refreshExpiresIn ∧
      st1.nonceCtr = st.nonceCtr + 1 ∧ st1.now = st.now := by
  unfold signIn at h
  split at h
  · simp at h
  next m u hck =>
    split at h
    · simp at h
    next hup =>
      simp only [Prod.mk.injEq, Except.ok.injEq] at h
      obtain ⟨hout, hst⟩ := h
      subst hout
      subst hst
      exact ⟨m, u, hck, by simpa using hup, rfl, rfl, rfl, rfl, rfl, rfl, rfl⟩

/-- In a state whose stored nonce for the user differs from the request
nonce, `signIn` aborts at the nonce comparison with the 401 'Invalid nonce'
error and mutates nothing. -/
theorem signIn_nonce_mismatch (env : Env) (st : St) (dto : SignInDTO) (m : SiweMsg) (u : UserRec)
    (hp : env.parseSiwe dto.message = some m)
    (ha : env.isAddress m.address = true)
    (hf : st.users.find? (fun x => x.publicAddress == m.address) = some u)
    (hn : u.nonce ≠ dto.nonce) :
    signIn env st dto = (.error .invalidNonce, st) := by
  have hck : signInChecks env st dto = .error .invalidNonce := by
    unfold signInChecks
    rw [hp]
    simp [ha, hf, beq_eq_false_iff_ne.mpr hn]
  simp [signIn, hck]

/-! ## A concrete scenario used to instantiate the theorems

One registered user `0xabc` holding nonce `n0`; the SIWE oracles accept the
message string `msg` with signature `sig`; the configuration is the default
`1h` access / `7d` refresh expirations as produced by `parseDuration`. -/

/-- A concrete environment: the oracles accept exactly the demo message and
signature, and the nonce stream yields `nonce0`, `nonce1`, .... -/
def demoEnv : Env :=
  { parseSiwe := fun m => if m == "msg" then some { address := "0xabc", nonce := "n0" } else none
    isAddress := fun a => a == "0xabc"
    siweVerify := fun m sg n => if sg == "sig" && (m.nonce == n) then some true else some false
    nonceStream := fun i => "nonce" ++ toString i
    idStream := fun i => "id" ++ toString i
    accessSecret := "as"
    refreshSecret := "rs"
    accessExpiresIn := 3600000
    refreshExpiresIn := 604800000
    redisUp := true }

/-- The same environment with the Redis connection down. -/
def demoEnvDown : Env := { demoEnv with redisUp := false }

/-- The registered demo user. -/
def demoUser : UserRec :=
  { id := "u1", publicAddress := "0xabc", nonce := "n0", username := "user-0xabc",
    createdAt := 5, updatedAt := 5 }

/-- The initial demo state: one user, empty session store, clock at 1000. -/
def demoSt : St := { users := [demoUser], redis := [], nonceCtr := 0, now := 1000 }

/-- The demo sign-in request. -/
def demoDto : SignInDTO := { nonce := "n0", message := "msg", signature := "sig" }

/-- The access token the demo sign-in issues. -/
def demoAccessTok : Jwt := { payload := demoUser, secret := "as", iat := 1000, exp := 3601000 }

/-- The refresh token the demo sign-in issues. -/
def demoRefreshTok : Jwt := { payload := demoUser, secret := "rs", iat := 1000, exp := 604801000 }

/-- The demo sign-in response. -/
def demoOut : SignInResp :=
  { address := "0xabc", accessToken := demoAccessTok, refreshToken := demoRefreshTok }

/-- The demo user after the sign-in rotated its nonce. -/
def demoUser1 : UserRec := { demoUser with nonce := "nonce0", updatedAt := 1000 }

/-- The demo state after the sign-in. -/
def demoSt1 : St :=
  { users := [demoUser1]
    redis := [{ key := "refresh:0xabc", value := demoRefreshTok, ttlSeconds := 604800 },
              { key := "access:0xabc", value := demoAccessTok, ttlSeconds := 3600 }]
    nonceCtr := 1
    now := 1000 }

/-- The demo sign-in computes to the demo response and state. -/
theorem demo_signIn_eq : signIn demoEnv demoSt demoDto = (.ok demoOut, demoSt1) := rfl

/-! ## C1 -/

/-- C1: a nonce is consumed by sign-in at most once.  If `signIn` succeeds
and the freshly generated rotation nonce differs from the consumed one (the
generator is cryptographically random, so collision is negligible), then
replaying the very same `\x7bmessage, signature, nonce\x7d` triple against the
resulting state fails with the 401 'Invalid nonce' error and mutates
nothing. -/
theorem signIn_nonce_single_use (env : Env) (st : St) (dto : SignInDTO)
    (out : SignInResp) (st1 : St)
    (h : signIn env st dto = (.ok out, st1))
    (hfresh : env.nonceStream st.nonceCtr ≠ dto.nonce) :
    signIn env st1 dto = (.error .invalidNonce, st1) ∧ httpStatus .invalidNonce = 401 := by
  obtain ⟨m, u, hck, hup, hoaddr, hat, hrt, husers, hredis, hctr, hnow⟩ :=
    signIn_ok_inv env st dto out st1 h
  obtain ⟨hp, ha, hf, hn, hv⟩ := (signInChecks_ok_iff env st dto m u).mp hck
  have hfind1 : st1.users.find? (fun x => x.publicAddress == m.address) =
      some (rotateNonce m.address (env.nonceStream st.nonceCtr) st.now u) := by
    rw [husers, find?_users_rotate, hf]
    rfl
  have hmatch : (u.publicAddress == m.address) = true := by
    have := List.find?_some hf
    simpa using this
  have hrot : rotateNonce m.address (env.nonceStream st.nonceCtr) st.now u =
      { u with nonce := env.nonceStream st.nonceCtr, updatedAt := st.now } :=
    rotateNonce_of_match _ _ _ _ hmatch
  refine ⟨?_, rfl⟩
  refine signIn_nonce_mismatch env st1 dto m _ hp ha (by rw [hfind1, hrot]) ?_
  simpa using hfresh

/-- C1 witnessed on the demo scenario: the first sign-in succeeds and the
replay fails with the nonce-mismatch 401. -/
theorem signIn_nonce_single_use_witness :
    signIn demoEnv demoSt1 demoDto = (.error .invalidNonce, demoSt1) ∧
      httpStatus .invalidNonce = 401 :=
  signIn_nonce_single_use demoEnv demoSt demoDto demoOut demoSt1 demo_signIn_eq (by decide)

/-- After the two `storeToken` writes of a sign-in, the access slot of the
address holds the access token just issued. -/
theorem redisGet_after_signIn_access (l : List RedisEntry) (a : String) (atk rtk : Jwt)
    (t1 t2 : Nat) :
    redisGet (storeToken (storeToken l "access" a atk t1) "refresh" a rtk t2)
      (getTokenKey "access" a) = some atk := by
  unfold storeToken redisSet redisGet redisGetEntry
  simp [List.find?_cons, List.filter_cons, refreshKey_beq_accessKey a, accessKey_beq_refreshKey a]

/-- After `RedisService.delete(k1, k2)`, key `k1` is gone. -/
theorem redisGet_del2_left (l : List RedisEntry) (k1 k2 : String) :
    redisGet (redisDel2 l k1 k2) k1 = none := by
  unfold redisGet redisGetEntry redisDel2
  rw [find?_filter_none]
  · rfl
  · intro e he
    simp [he]

/-! ## C2 -/

/-- C2: an access token issued by a successful `signIn` passes the access
guard, and after `signOut` for that address the very same token is rejected
with 401 even though its signature still verifies against the access secret
and it has not expired — because the guard requires the stored access-token
value for the payload's address to exist and equal the presented token.
The hypotheses ask for a positive expiration window and truthy `id` /
`publicAddress` fields in the issued payload (both always hold for rows
created by `getNonce`: cuids and checksummed addresses are nonempty). -/
theorem access_guard_lifecycle (env : Env) (st : St) (dto : SignInDTO)
    (out : SignInResp) (st1 : St)
    (h : signIn env st dto = (.ok out, st1))
    (hexp : 0 < env.accessExpiresIn)
    (hid : out.accessToken.payload.id ≠ "")
    (haddr0 : out.accessToken.payload.publicAddress ≠ "") :
    (∃ w, accessGuard env st1 out.accessToken = .ok w) ∧
    out.accessToken.secret = env.accessSecret ∧
    ∃ st2, signOut env st1 out.address = (.ok (), st2) ∧
      st2.now < out.accessToken.exp ∧
      accessGuard env st2 out.accessToken = .error .guardTokenStale ∧
      httpStatus .guardTokenStale = 401 := by
  obtain ⟨m, u, hck, hup, hoaddr, hat, hrt, husers, hredis, hctr, hnow⟩ :=
    signIn_ok_inv env st dto out st1 h
  obtain ⟨hp, ha, hf, hn, hv⟩ := (signInChecks_ok_iff env st dto m u).mp hck
  have hmatch : (u.publicAddress == m.address) = true := by
    have := List.find?_some hf
    simpa using this
  have hPA : u.publicAddress = m.address := eq_of_beq hmatch
  have hsec : out.accessToken.secret = env.accessSecret := by rw [hat]; rfl
  have hexp2 : out.accessToken.exp = st.now + env.accessExpiresIn := by rw [hat]; rfl
  have hpay : out.accessToken.payload = u := by rw [hat]; rfl
  have hverify : verifyJwt out.accessToken env.accessSecret st.now = true := by
    unfold verifyJwt
    rw [hsec, hexp2]
    simp [Nat.lt_add_of_pos_right hexp]
  have hidb : (out.accessToken.payload.id == "") = false := beq_eq_false_iff_ne.mpr hid
  have haddrb : (out.accessToken.payload.publicAddress == "") = false :=
    beq_eq_false_iff_ne.mpr haddr0
  have hget : redisGet st1.redis (getTokenKey "access" m.address) = some out.accessToken := by
    rw [hredis]
    exact redisGet_after_signIn_access st.redis m.address out.accessToken out.refreshToken _ _
  have hmem : rotateNonce m.address (env.nonceStream st.nonceCtr) st.now u ∈ st1.users := by
    rw [husers]
    exact List.mem_map_of_mem _ (List.mem_of_find?_eq_some hf)
  have hsome : (st1.users.find? (fun x => x.id == out.accessToken.payload.id)).isSome := by
    refine List.find?_isSome.mpr ⟨_, hmem, ?_⟩
    rw [hpay]
    simp [rotateNonce_id]
  obtain ⟨w, hw⟩ := Option.isSome_iff_exists.mp hsome
  rw [hpay] at hid haddr0 hw
  rw [hPA] at haddr0
  refine ⟨⟨w, ?_⟩, hsec, ?_⟩
  · unfold accessGuard
    rw [hnow, hverify]
    simp [hidb, haddrb, hup, hpay, hPA, hget, hw, hid, haddr0]
  · refine ⟨{ st1 with redis := (redisDel2 st1.redis (getTokenKey "access" out.address)
        (getTokenKey "refresh" out.address)) }, ?_, ?_, ?_, rfl⟩
    · unfold signOut
      rw [hup]
      simp
    · show st1.now < out.accessToken.exp
      rw [hexp2, hnow]
      exact Nat.lt_add_of_pos_right hexp
    · unfold accessGuard
      rw [hnow, hverify]
      have hgone : redisGet (redisDel2 st1.redis (getTokenKey "access" out.address)
          (getTokenKey "refresh" out.address)) (getTokenKey "access" m.address) = none := by
        rw [← hoaddr]
        exact redisGet_del2_left st1.redis _ _
      simp [hidb, haddrb, hup, hgone, hpay, hPA, hid, haddr0]


/-- C2 witnessed on the demo scenario. -/
theorem access_guard_lifecycle_witness :
    (∃ w, accessGuard demoEnv demoSt1 demoOut.accessToken = .ok w) ∧
    demoOut.accessToken.secret = demoEnv.accessSecret ∧
    ∃ st2, signOut demoEnv demoSt1 demoOut.address = (.ok (), st2) ∧
      st2.now < demoOut.accessToken.exp ∧
      accessGuard demoEnv st2 demoOut.accessToken = .error .guardTokenStale ∧
      httpStatus .guardTokenStale = 401 :=
  access_guard_lifecycle demoEnv demoSt demoDto demoOut demoSt1 demo_signIn_eq
    (by decide) (by decide) (by decide)


/-- After `RedisService.delete(k1, k2)`, key `k2` is gone. -/
theorem redisGet_del2_right (l : List RedisEntry) (k1 k2 : String) :
    redisGet (redisDel2 l k1 k2) k2 = none := by
  unfold redisGet redisGetEntry redisDel2
  rw [find?_filter_none]
  · rfl
  · intro e he
    simp [he]

/-! ## C3 -/

/-- C3: for every presented refresh token, if `refresh` succeeds then the
Session Store held a refresh-token value for the payload's address exactly
string-equal to the presented token; and whenever the token's signature
verifies (with expiry) but the reachable store does not hold that exact
value — absent, or superseded by a later sign-in's overwrite — `refresh`
fails with a 401 and leaves the state unchanged. -/
theorem refresh_requires_stored_token (env : Env) (st : St) (t : Jwt) (old : Option Jwt) :
    (∀ out st', refresh env st t old = (.ok out, st') →
        redisGet st.redis (getTokenKey "refresh" t.payload.publicAddress) = some t) ∧
    (verifyJwt t env.refreshSecret st.now = true →
     env.redisUp = true →
     redisGet st.redis (getTokenKey "refresh" t.payload.publicAddress) ≠ some t →
     ∃ e, refresh env st t old = (.error e, st) ∧ httpStatus e = 401) := by
  constructor
  · intro out st' h
    unfold refresh at h
    cases hver : verifyJwt t env.refreshSecret st.now with
    | false => simp [hver] at h
    | true =>
      cases haddr : (t.payload.publicAddress == "") with
      | true => simp [hver, haddr] at h
      | false =>
        cases hup : env.redisUp with
        | false => simp [hver, haddr, hup] at h
        | true =>
          cases hg : redisGet st.redis (getTokenKey "refresh" t.payload.publicAddress) with
          | none => simp [hver, haddr, hup, hg] at h
          | some s =>
            cases hseq : (s == t) with
            | false => simp [hver, haddr, hup, hg, hseq] at h
            | true => exact congrArg some (eq_of_beq hseq)
  · intro hver hup hne
    cases haddr : (t.payload.publicAddress == "") with
    | true => exact ⟨.invalidTokenPayload, by simp [refresh, hver, haddr], rfl⟩
    | false =>
      cases hg : redisGet st.redis (getTokenKey "refresh" t.payload.publicAddress) with
      | none => exact ⟨.refreshTokenStale, by simp [refresh, hver, haddr, hup, hg], rfl⟩
      | some s =>
        have hsne : (s == t) = false :=
          beq_eq_false_iff_ne.mpr (fun hh => hne (by rw [hg, hh]))
        exact ⟨.refreshTokenStale, by simp [refresh, hver, haddr, hup, hg, hsne], rfl⟩

/-! ## C9 -/

/-- C9: the result and the store effect of `refresh` are independent of the
optional `oldAccessToken` argument, which is bound but never read, so the two
runs are definitionally the same function value. -/
theorem refresh_ignores_oldAccessToken (env : Env) (st : St) (t : Jwt) (a b : Option Jwt) :
    refresh env st t a = refresh env st t b := rfl

/-! ## C4 -/

/-- C4 is refuted by the code: with the default configuration
`JWT_ACCESS_EXPIRES_IN = '1h'`, `parseDuration` yields 3600000 milliseconds;
`signIn` persists the access token with TTL `Math.floor(3600000/1000) = 3600`
seconds, but signs it with the numeric option `expiresIn: 3600000`, which
jsonwebtoken reads as 3600000 seconds, so `exp - iat = 3600000 ≠ 3600`.
The spec's stated intent (TTL seconds = expiration window) does not hold. -/
theorem storeToken_ttl_mismatches_exp :
    parseDuration "1h" = some (Int.ofNat 3600000) ∧
    demoEnv.accessExpiresIn = 3600000 ∧
    (redisGetEntry (signIn demoEnv demoSt demoDto).2.redis (getTokenKey "access" "0xabc")).map
        (fun e => (e.ttlSeconds, e.value.exp - e.value.iat)) = some (3600, 3600000) ∧
    (3600 : Nat) ≠ 3600000 := by
  refine ⟨by decide, rfl, by rfl, by decide⟩

/-! ## C7 -/

/-- C7: with the store reachable, `signOut` always succeeds, removes exactly
the access and refresh entries of the given address (all other keys read the
same), never touches the user table (hence no identity record or nonce), and
is idempotent: running it again succeeds and leaves the state unchanged. -/
theorem signOut_unconditional_idempotent (env : Env) (st : St) (a : String)
    (hup : env.redisUp = true) :
    ∃ st', signOut env st a = (.ok (), st') ∧
      st'.users = st.users ∧ st'.nonceCtr = st.nonceCtr ∧ st'.now = st.now ∧
      redisGet st'.redis (getTokenKey "access" a) = none ∧
      redisGet st'.redis (getTokenKey "refresh" a) = none ∧
      (∀ k, k ≠ getTokenKey "access" a → k ≠ getTokenKey "refresh" a →
        redisGet st'.redis k = redisGet st.redis k) ∧
      signOut env st' a = (.ok (), st') := by
  refine ⟨{ st with redis := (redisDel2 st.redis (getTokenKey "access" a)
      (getTokenKey "refresh" a)) }, ?_, rfl, rfl, rfl, ?_, ?_, ?_, ?_⟩
  · simp [signOut, hup]
  · exact redisGet_del2_left st.redis _ _
  · exact redisGet_del2_right st.redis _ _
  · intro k h1 h2
    show redisGet (redisDel2 st.redis _ _) k = redisGet st.redis k
    unfold redisGet redisGetEntry redisDel2
    rw [find?_filter_keep]
    intro e he
    have hk : e.key = k := eq_of_beq he
    rw [hk]
    simp [beq_eq_false_iff_ne.mpr h1, beq_eq_false_iff_ne.mpr h2]
  · have hidem := filter_self_idem
      (fun e => !(e.key == getTokenKey "access" a || e.key == getTokenKey "refresh" a)) st.redis
    simp [signOut, hup, redisDel2, hidem]

/-! ## C10 -/

/-- C10: for an existing identity, `getNonce` leaves every Session Store
entry untouched and mutates only the nonce (and `updatedAt` stamp) of that
identity's row: its `id`, `publicAddress` and `username` afterwards are the
ones from before the call, whether the call succeeds or rejects the
address. -/
theorem getNonce_frame (env : Env) (st : St) (a : String) (u : UserRec)
    (h : st.users.find? (fun x => x.publicAddress == a) = some u) :
    (getNonce env st a).2.redis = st.redis ∧
    ∃ u', (getNonce env st a).2.users.find? (fun x => x.publicAddress == a) = some u' ∧
      u'.id = u.id ∧ u'.publicAddress = u.publicAddress ∧ u'.username = u.username := by
  cases hva : env.isAddress a with
  | false =>
    simp only [getNonce, hva]
    exact ⟨rfl, u, h, rfl, rfl, rfl⟩
  | true =>
    simp only [getNonce, hva, h]
    refine ⟨rfl, rotateNonce a (env.nonceStream st.nonceCtr) st.now u, ?_, ?_, ?_, ?_⟩
    · show (st.users.map (rotateNonce a (env.nonceStream st.nonceCtr) st.now)).find?
        (fun x => x.publicAddress == a) = _
      rw [find?_users_rotate, h]
      rfl
    · exact rotateNonce_id _ _ _ _
    · exact rotateNonce_publicAddress _ _ _ _
    · exact rotateNonce_username _ _ _ _



/-! ## C6 -/

/-- C6: `signIn` performs its checks in the fixed order message-parse,
embedded-address validation, identity lookup, nonce comparison, signature
verification; each step's failure aborts the whole call with that step's
distinct error and status (400/400/400/401/401) before any later step can
influence the outcome and without mutating any state.  Each conjunct makes
no assumption about the outcomes of the later steps' oracles. -/
theorem signIn_check_order (env : Env) (st : St) (dto : SignInDTO) :
    (env.parseSiwe dto.message = none →
      signIn env st dto = (.error .invalidSiweMessage, st) ∧
        httpStatus .invalidSiweMessage = 400) ∧
    (∀ m, env.parseSiwe dto.message = some m → env.isAddress m.address = false →
      signIn env st dto = (.error .addressNotValid, st) ∧ httpStatus .addressNotValid = 400) ∧
    (∀ m, env.parseSiwe dto.message = some m → env.isAddress m.address = true →
      st.users.find? (fun x => x.publicAddress == m.address) = none →
      signIn env st dto = (.error .userNotFound, st) ∧ httpStatus .userNotFound = 400) ∧
    (∀ m u, env.parseSiwe dto.message = some m → env.isAddress m.address = true →
      st.users.find? (fun x => x.publicAddress == m.address) = some u →
      u.nonce ≠ dto.nonce →
      signIn env st dto = (.error .invalidNonce, st) ∧ httpStatus .invalidNonce = 401) ∧
    (∀ m u, env.parseSiwe dto.message = some m → env.isAddress m.address = true →
      st.users.find? (fun x => x.publicAddress == m.address) = some u →
      u.nonce = dto.nonce → env.siweVerify m dto.signature u.nonce ≠ some true →
      ∃ e, signIn env st dto = (.error e, st) ∧ httpStatus e = 401 ∧
        (e = .siweVerifyThrew ∨ e = .siweVerifyFailed)) := by
  refine ⟨?_, ?_, ?_, ?_, ?_⟩
  · intro hp
    have hck : signInChecks env st dto = .error .invalidSiweMessage := by
      unfold signInChecks
      rw [hp]
    exact ⟨by simp [signIn, hck], rfl⟩
  · intro m hp ha
    have hck : signInChecks env st dto = .error .addressNotValid := by
      unfold signInChecks
      rw [hp]
      simp [ha]
    exact ⟨by simp [signIn, hck], rfl⟩
  · intro m hp ha hf
    have hck : signInChecks env st dto = .error .userNotFound := by
      unfold signInChecks
      rw [hp]
      simp [ha, hf]
    exact ⟨by simp [signIn, hck], rfl⟩
  · intro m u hp ha hf hn
    exact ⟨signIn_nonce_mismatch env st dto m u hp ha hf hn, rfl⟩
  · intro m u hp ha hf hn hv
    rw [hn] at hv
    cases hvv : env.siweVerify m dto.signature dto.nonce with
    | none =>
      have hck : signInChecks env st dto = .error .siweVerifyThrew := by
        unfold signInChecks
        rw [hp]
        simp [ha, hf, hn, hvv]
      exact ⟨.siweVerifyThrew, by simp [signIn, hck], rfl, Or.inl rfl⟩
    | some b =>
      cases b with
      | true => exact absurd hvv hv
      | false =>
        have hck : signInChecks env st dto = .error .siweVerifyFailed := by
          unfold signInChecks
          rw [hp]
          simp [ha, hf, hn, hvv]
        exact ⟨.siweVerifyFailed, by simp [signIn, hck], rfl, Or.inr rfl⟩

/-! ## C8 -/

/-- C8: if the Session Store is unavailable when `signIn` tries to persist
the freshly signed tokens, the call propagates the 503 store error and
returns no tokens, yet the identity's nonce has already been rotated by then
and is not rolled back: the store is untouched, the user row carries the
fresh nonce, and — provided the fresh nonce differs from the consumed one —
retrying the same signed message now fails with the nonce-mismatch error. -/
theorem signIn_store_failure_keeps_rotated_nonce (env : Env) (st : St) (dto : SignInDTO)
    (m : SiweMsg) (u : UserRec)
    (hdown : env.redisUp = false)
    (hp : env.parseSiwe dto.message = some m)
    (ha : env.isAddress m.address = true)
    (hf : st.users.find? (fun x => x.publicAddress == m.address) = some u)
    (hn : u.nonce = dto.nonce)
    (hv : env.siweVerify m dto.signature u.nonce = some true) :
    ∃ st', signIn env st dto = (.error .serviceUnavailable, st') ∧
      httpStatus .serviceUnavailable = 503 ∧
      st'.redis = st.redis ∧
      st'.users.find? (fun x => x.publicAddress == m.address) =
        some { u with nonce := env.nonceStream st.nonceCtr, updatedAt := st.now } ∧
      (env.nonceStream st.nonceCtr ≠ dto.nonce →
        signIn env st' dto = (.error .invalidNonce, st')) := by
  have hck : signInChecks env st dto = .ok (m, u) :=
    (signInChecks_ok_iff env st dto m u).mpr ⟨hp, ha, hf, hn, hv⟩
  have hmatch : (u.publicAddress == m.address) = true := by
    have := List.find?_some hf
    simpa using this
  have hfind1 : (st.users.map (rotateNonce m.address (env.nonceStream st.nonceCtr)
      st.now)).find? (fun x => x.publicAddress == m.address) =
      some { u with nonce := env.nonceStream st.nonceCtr, updatedAt := st.now } := by
    rw [find?_users_rotate, hf]
    simp [rotateNonce_of_match _ _ _ _ hmatch]
  refine ⟨{ st with
      users := (st.users.map (rotateNonce m.address (env.nonceStream st.nonceCtr) st.now)),
      nonceCtr := st.nonceCtr + 1 }, ?_, rfl, rfl, hfind1, ?_⟩
  · unfold signIn
    rw [hck]
    simp [hdown]
  · intro hfresh
    refine signIn_nonce_mismatch env _ dto m _ hp ha hfind1 ?_
    simpa using hfresh



/-! ## C5 -/

/-- The regex scan yields nothing on an empty input, whatever the fuel. -/
theorem scanMatchesF_nil (fuel : Nat) : scanMatchesF fuel [] = [] := by
  cases fuel <;> rfl

/-- One step of the regex scan. -/
theorem scanMatchesF_succ_cons (fuel : Nat) (c : Char) (rest : List Char) :
    scanMatchesF (fuel + 1) (c :: rest) =
      if c.isDigit then
        match matchUnit (((c :: rest).dropWhile Char.isDigit).dropWhile Char.isWhitespace) with
        | some (f, r) => (digitsVal ((c :: rest).takeWhile Char.isDigit), f) :: scanMatchesF fuel r
        | none => scanMatchesF fuel rest
      else scanMatchesF fuel rest := by
  rw [scanMatchesF]

/-- Splitting a maximal digit run at the first non-digit. -/
theorem takeWhile_digits_append (x : Char) (l : List Char) (hx : x.isDigit = false) :
    ∀ ds : List Char, (∀ c ∈ ds, c.isDigit = true) →
      (ds ++ x :: l).takeWhile Char.isDigit = ds ∧
      (ds ++ x :: l).dropWhile Char.isDigit = x :: l := by
  intro ds
  induction ds with
  | nil =>
    intro _
    simp [List.takeWhile_cons, List.dropWhile_cons, hx]
  | cons d t ih =>
    intro h
    have hd : d.isDigit = true := h d (by simp)
    have ht := ih (fun c hc => h c (by simp [hc]))
    simp [List.takeWhile_cons, List.dropWhile_cons, hd, ht.1, ht.2]

/-- On an input of decimal digits followed by `ms`, the scan produces one
single match whose unit factor is the minutes factor: the ordered alternation
matches `m` and leaves the trailing `s` unconsumed, where no further match
starts. -/
theorem scanMatches_digits_ms (ds : List Char) (hne : ds ≠ [])
    (hdig : ∀ c ∈ ds, c.isDigit = true) :
    scanMatches (ds ++ ['m', 's']) = [(digitsVal ds, 60 * 1000)] := by
  obtain ⟨d0, ds', rfl⟩ := List.exists_cons_of_ne_nil hne
  have hd0 : d0.isDigit = true := hdig d0 (by simp)
  have htw := takeWhile_digits_append 'm' ['s'] (by decide) (d0 :: ds') hdig
  unfold scanMatches
  have hlen : ((d0 :: ds') ++ ['m', 's']).length = ds'.length + 2 + 1 := by
    simp [List.length_append]
  rw [hlen, List.cons_append, scanMatchesF_succ_cons, ← List.cons_append, hd0]
  simp only [if_true]
  rw [htw.2]
  have hwm : (['m', 's'].dropWhile Char.isWhitespace) = ['m', 's'] := rfl
  rw [hwm]
  have hmu : matchUnit ['m', 's'] = some (60 * 1000, ['s']) := rfl
  rw [hmu, htw.1]
  show _ :: scanMatchesF (ds'.length + 1 + 1) ['s'] = _
  rw [scanMatchesF_succ_cons]
  have hs : ('s').isDigit = false := rfl
  rw [hs]
  simp only [Bool.false_eq_true, if_false]
  rw [scanMatchesF_nil]

/-- C5: `parseDuration` conflates the minute and millisecond suffixes.  For
every nonempty string of decimal digits denoting a positive integer `n`, the
input `n` followed by `ms` parses to `n * 60 * 1000` — the minutes
interpretation — rather than `n`. -/
theorem parseDuration_ms_conflated (ds : List Char) (hne : ds ≠ [])
    (hdig : ∀ c ∈ ds, c.isDigit = true) (hpos : 0 < digitsVal ds) :
    parseDuration (String.mk (ds ++ ['m', 's'])) =
      some (Int.ofNat (digitsVal ds * (60 * 1000))) ∧
    digitsVal ds * (60 * 1000) ≠ digitsVal ds := by
  constructor
  · unfold parseDuration
    have hs : (String.mk (ds ++ ['m', 's'])).data = ds ++ ['m', 's'] := rfl
    rw [hs, scanMatches_digits_ms ds hne hdig]
    have hnz : ¬(digitsVal ds * (60 * 1000) = 0) := by
      intro hz
      rcases Nat.mul_eq_zero.mp hz with hz1 | hz2
      · omega
      · cases hz2
    simp [List.foldl, hnz]
  · intro h
    omega


/-- C3 witnessed: a verifiable refresh token that is absent from the store is
rejected with a 401. -/
theorem refresh_requires_stored_token_witness :
    ∃ e, refresh demoEnv demoSt demoRefreshTok none = (.error e, demoSt) ∧ httpStatus e = 401 :=
  (refresh_requires_stored_token demoEnv demoSt demoRefreshTok none).2
    (by decide) (by decide) (by decide)

/-- C5 witnessed at `5ms`: the helper returns 300000, not 5. -/
theorem parseDuration_ms_conflated_witness :
    parseDuration (String.mk ['5', 'm', 's']) =
      some (Int.ofNat (digitsVal ['5'] * (60 * 1000))) ∧
    digitsVal ['5'] * (60 * 1000) ≠ digitsVal ['5'] :=
  parseDuration_ms_conflated ['5'] (by decide) (by decide) (by decide)

/-- The SIWE message the demo oracles produce. -/
def demoMsg : SiweMsg := { address := "0xabc", nonce := "n0" }

/-- A SIWE message embedding an invalid address. -/
def demoBadMsg : SiweMsg := { address := "0xbad", nonce := "n0" }

/-- An environment whose parser yields a message embedding an invalid
address. -/
def demoEnvBadAddr : Env :=
  { demoEnv with parseSiwe := fun m => if m == "msg" then some demoBadMsg else none }

/-- The demo state with no registered users. -/
def demoStEmpty : St := { demoSt with users := [] }

/-- C6 witnessed: each of the five checks aborts on a concrete input with its
own error and status. -/
theorem signIn_check_order_witness :
    (signIn demoEnv demoSt { nonce := "n0", message := "bad", signature := "sig" } =
        (.error .invalidSiweMessage, demoSt) ∧ httpStatus .invalidSiweMessage = 400) ∧
    (signIn demoEnvBadAddr demoSt demoDto = (.error .addressNotValid, demoSt) ∧
        httpStatus .addressNotValid = 400) ∧
    (signIn demoEnv demoStEmpty demoDto = (.error .userNotFound, demoStEmpty) ∧
        httpStatus .userNotFound = 400) ∧
    (signIn demoEnv demoSt { nonce := "wrong", message := "msg", signature := "sig" } =
        (.error .invalidNonce, demoSt) ∧ httpStatus .invalidNonce = 401) ∧
    (∃ e, signIn demoEnv demoSt { nonce := "n0", message := "msg", signature := "badsig" } =
        (.error e, demoSt) ∧ httpStatus e = 401 ∧
        (e = .siweVerifyThrew ∨ e = .siweVerifyFailed)) :=
  ⟨(signIn_check_order demoEnv demoSt
      { nonce := "n0", message := "bad", signature := "sig" }).1 (by decide),
   (signIn_check_order demoEnvBadAddr demoSt demoDto).2.1 demoBadMsg (by decide) (by decide),
   (signIn_check_order demoEnv demoStEmpty demoDto).2.2.1 demoMsg
     (by decide) (by decide) (by decide),
   (signIn_check_order demoEnv demoSt
      { nonce := "wrong", message := "msg", signature := "sig" }).2.2.2.1 demoMsg demoUser
     (by decide) (by decide) (by decide) (by decide),
   (signIn_check_order demoEnv demoSt
      { nonce := "n0", message := "msg", signature := "badsig" }).2.2.2.2 demoMsg demoUser
     (by decide) (by decide) (by decide) (by decide) (by decide)⟩

/-- C7 witnessed on the post-sign-in demo state. -/
theorem signOut_unconditional_idempotent_witness :
    ∃ st', signOut demoEnv demoSt1 "0xabc" = (.ok (), st') ∧
      st'.users = demoSt1.users ∧
      redisGet st'.redis (getTokenKey "access" "0xabc") = none ∧
      redisGet st'.redis (getTokenKey "refresh" "0xabc") = none ∧
      signOut demoEnv st' "0xabc" = (.ok (), st') := by
  obtain ⟨st', h1, h2, h3, h4, h5, h6, h7, h8⟩ :=
    signOut_unconditional_idempotent demoEnv demoSt1 "0xabc" (by decide)
  exact ⟨st', h1, h2, h5, h6, h8⟩

/-- C8 witnessed: with Redis down the demo sign-in fails with 503, stores
nothing, but leaves the user holding the rotated nonce, and the replay is
rejected. -/
theorem signIn_store_failure_keeps_rotated_nonce_witness :
    ∃ st', signIn demoEnvDown demoSt demoDto = (.error .serviceUnavailable, st') ∧
      st'.redis = demoSt.redis ∧
      st'.users.find? (fun x => x.publicAddress == demoMsg.address) = some demoUser1 ∧
      signIn demoEnvDown st' demoDto = (.error .invalidNonce, st') := by
  obtain ⟨st', h1, h2, h3, h4, h5⟩ :=
    signIn_store_failure_keeps_rotated_nonce demoEnvDown demoSt demoDto demoMsg demoUser
      (by decide) (by decide) (by decide) (by decide) (by decide) (by decide)
  exact ⟨st', h1, h3, h4, h5 (by decide)⟩

/-- C10 witnessed on the demo user. -/
theorem getNonce_frame_witness :
    (getNonce demoEnv demoSt "0xabc").2.redis = demoSt.redis ∧
    ∃ u', (getNonce demoEnv demoSt "0xabc").2.users.find?
        (fun x => x.publicAddress == "0xabc") = some u' ∧
      u'.id = demoUser.id ∧ u'.publicAddress = demoUser.publicAddress ∧
      u'.username = demoUser.username :=
  getNonce_frame demoEnv demoSt "0xabc" demoUser (by decide)

end SiweAuth
